import Mathlib

/-!
# ARC-Hawk Validation & Masking Engine — formal model and verification

A shallow embedding, in Lean 4, of the PII validation and masking core of
the ARC-Hawk scanner (`apps/scanner/sdk/`): the Verhoeff and Luhn checksum
validators, the per-type format validators, the dummy/test-data detectors,
the context-aware confidence engine, the validation pipeline and its
`VerifiedFinding` schema, the masking strategies, and the filesystem
masking adapter.

Python strings are modelled as Lean `String`/`List Char`; Python floats as
exact rationals (`ℚ`); Python `int()` on a single character is modelled as
a partial function (it raises `ValueError` on characters such as the
superscript digit U+00B2 that `str.isdigit` accepts), so fallible code
returns `Option`/`Except`.  SHA-256 (`hashlib.sha256(...).hexdigest()`,
FIPS 180-4) is implemented concretely over `Nat` byte lists.
-/

set_option maxRecDepth 16384

namespace ARCHawk

/-! ## Python character primitives

`str.isdigit` is true for the ASCII decimal digits and also for characters
with the Unicode `Digit` numeric type that are not decimal digits, such as
the Latin-1 superscripts ¹ (U+00B9), ² (U+00B2) and ³ (U+00B3).  We model
the restriction of `str.isdigit` to the Basic Latin and Latin-1 blocks,
which covers every character used in the theorems below.

`int()` applied to a one-character string succeeds only on characters of
Unicode category `Nd` (for our fragment: ASCII `0`-`9`) and raises
`ValueError` otherwise; it is therefore modelled as `Option Nat`. -/

/-- Python `str.isdigit`, restricted to the Basic Latin and Latin-1 blocks. -/
def pyIsDigit (c : Char) : Bool :=
  c.isDigit || c = '¹' || c = '²' || c = '³'

/-- Python `int(c)` for a single character `c`: `some` of the digit value on
ASCII `0`-`9`, `none` (a `ValueError`) on everything else — in particular on
the superscript digits that `str.isdigit` accepts. -/
def pyDigitVal (c : Char) : Option Nat :=
  if c.isDigit then some (c.toNat - 48) else none

/-- Python `str.upper` restricted to ASCII (sufficient for every character
reaching the validators in the theorems below). -/
def pyUpperChar (c : Char) : Char := c.toUpper

/-- Python `str.lower` restricted to ASCII. -/
def pyLowerChar (c : Char) : Char := c.toLower

/-- Uppercase a whole string (Python `str.upper` on ASCII). -/
def pyUpper (s : String) : String := String.mk (s.data.map pyUpperChar)

/-- Lowercase a whole string (Python `str.lower` on ASCII). -/
def pyLower (s : String) : String := String.mk (s.data.map pyLowerChar)

/-- Python whitespace, as stripped by `str.strip()`. -/
def isPyWhitespace (c : Char) : Bool :=
  c = ' ' || c = '\t' || c = '\n' || c = '\r' || c = '\x0b' || c = '\x0c'

/-- Python `str.strip()` on a character list. -/
def pyStripList (l : List Char) : List Char :=
  ((l.dropWhile isPyWhitespace).reverse.dropWhile isPyWhitespace).reverse

/-- Python `str.strip()`. -/
def pyStrip (s : String) : String := String.mk (pyStripList s.data)

/-- Drop every occurrence of the characters in `drop` (the composition of
Python `str.replace(c, "")` for each `c` in `drop`). -/
def dropChars (drop : List Char) (s : String) : String :=
  String.mk (s.data.filter (fun c => !(drop.contains c)))

/-- Python slicing `s[a:b]` for `0 ≤ a ≤ b` (with Python's clamping at the
string boundaries). -/
def pySlice (s : String) (a b : Nat) : String :=
  String.mk ((s.data.drop a).take (b - a))

/-- Substring containment, Python's `needle in hay` (for nonempty needles). -/
def occursIn (hay needle : List Char) : Bool :=
  match hay with
  | [] => decide (needle = [])
  | _ :: rest => needle.isPrefixOf hay || occursIn rest needle

/-- Substring containment on strings. -/
def strOccursIn (hay needle : String) : Bool := occursIn hay.data needle.data

/-- Number of distinct characters, Python `len(set(text))`. -/
def distinctCount (l : List Char) : Nat := l.dedup.length

/-! ## SHA-256 over `Nat` byte lists (FIPS 180-4)

Models `hashlib.sha256(data.encode("utf-8")).hexdigest()`.  All 32-bit
machine arithmetic is `Nat` with explicit reduction modulo `2^32`. -/

/-- `2^32`. -/
def M32 : Nat := 4294967296

/-- Right-rotation of a 32-bit word by `n` places. -/
def rotr32 (n x : Nat) : Nat := (x / 2 ^ n + x % 2 ^ n * 2 ^ (32 - n)) % M32

/-- Right-shift of a 32-bit word. -/
def shr32 (n x : Nat) : Nat := x / 2 ^ n

/-- Bitwise complement of a 32-bit word (for `x < 2^32` this is the
bit-flip). -/
def not32 (x : Nat) : Nat := 4294967295 - x

/-- SHA-256 `Ch`. -/
def ch32 (x y z : Nat) : Nat := Nat.xor (Nat.land x y) (Nat.land (not32 x) z)

/-- SHA-256 `Maj`. -/
def maj32 (x y z : Nat) : Nat :=
  Nat.xor (Nat.xor (Nat.land x y) (Nat.land x z)) (Nat.land y z)

/-- SHA-256 `Σ₀`. -/
def bsig0 (x : Nat) : Nat := Nat.xor (Nat.xor (rotr32 2 x) (rotr32 13 x)) (rotr32 22 x)

/-- SHA-256 `Σ₁`. -/
def bsig1 (x : Nat) : Nat := Nat.xor (Nat.xor (rotr32 6 x) (rotr32 11 x)) (rotr32 25 x)

/-- SHA-256 `σ₀`. -/
def ssig0 (x : Nat) : Nat := Nat.xor (Nat.xor (rotr32 7 x) (rotr32 18 x)) (shr32 3 x)

/-- SHA-256 `σ₁`. -/
def ssig1 (x : Nat) : Nat := Nat.xor (Nat.xor (rotr32 17 x) (rotr32 19 x)) (shr32 10 x)

/-- The 64 SHA-256 round constants (fractional parts of the cube roots of
the first 64 primes, FIPS 180-4 §4.2.2), in decimal. -/
def sha256K : List Nat := [
  1116352408, 1899447441, 3049323471, 3921009573, 961987163, 1508970993,
  2453635748, 2870763221, 3624381080, 310598401, 607225278, 1426881987,
  1925078388, 2162078206, 2614888103, 3248222580, 3835390401, 4022224774,
  264347078, 604807628, 770255983, 1249150122, 1555081692, 1996064986,
  2554220882, 2821834349, 2952996808, 3210313671, 3336571891, 3584528711,
  113926993, 338241895, 666307205, 773529912, 1294757372, 1396182291,
  1695183700, 1986661051, 2177026350, 2456956037, 2730485921, 2820302411,
  3259730800, 3345764771, 3516065817, 3600352804, 4094571909, 275423344,
  430227734, 506948616, 659060556, 883997877, 958139571, 1322822218,
  1537002063, 1747873779, 1955562222, 2024104815, 2227730452, 2361852424,
  2428436474, 2756734187, 3204031479, 3329325298]

/-- The SHA-256 working state: eight 32-bit words. -/
structure Sha2St where
  a : Nat
  b : Nat
  c : Nat
  d : Nat
  e : Nat
  f : Nat
  g : Nat
  h : Nat

/-- The SHA-256 initial hash value (fractional parts of the square roots of
the first 8 primes, FIPS 180-4 §5.3.3). -/
def sha256IV : Sha2St :=
  ⟨1779033703, 3144134277, 1013904242, 2773480762,
   1359893119, 2600822924, 528734635, 1541459225⟩

/-- One SHA-256 round: consume one `(Kₜ, Wₜ)` pair. -/
def sha256Round (s : Sha2St) (kw : Nat × Nat) : Sha2St :=
  let t1 := (s.h + bsig1 s.e + ch32 s.e s.f s.g + kw.1 + kw.2) % M32
  let t2 := (bsig0 s.a + maj32 s.a s.b s.c) % M32
  ⟨(t1 + t2) % M32, s.a, s.b, s.c, (s.d + t1) % M32, s.e, s.f, s.g⟩

/-- Assemble big-endian 32-bit words from a byte list. -/
def bytesToWords : List Nat → List Nat
  | b0 :: b1 :: b2 :: b3 :: rest =>
      (b0 * 16777216 + b1 * 65536 + b2 * 256 + b3) :: bytesToWords rest
  | _ => []

/-- Message-schedule extension: append `fuel` further words `W₁₆…W₆₃`. -/
def extendW : Nat → List Nat → List Nat
  | 0, w => w
  | fuel + 1, w =>
      let n := w.length
      let next := (ssig1 (w.getD (n - 2) 0) + w.getD (n - 7) 0 +
                   ssig0 (w.getD (n - 15) 0) + w.getD (n - 16) 0) % M32
      extendW fuel (w ++ [next])

/-- Compress one 64-byte block into the state. -/
def sha256Compress (st : Sha2St) (block : List Nat) : Sha2St :=
  let w := extendW 48 (bytesToWords block)
  let r := (sha256K.zip w).foldl sha256Round st
  ⟨(st.a + r.a) % M32, (st.b + r.b) % M32, (st.c + r.c) % M32, (st.d + r.d) % M32,
   (st.e + r.e) % M32, (st.f + r.f) % M32, (st.g + r.g) % M32, (st.h + r.h) % M32⟩

/-- Big-endian 8-byte encoding of a 64-bit length field. -/
def be64 (n : Nat) : List Nat :=
  [n / 72057594037927936 % 256, n / 281474976710656 % 256,
   n / 1099511627776 % 256, n / 4294967296 % 256,
   n / 16777216 % 256, n / 65536 % 256, n / 256 % 256, n % 256]

/-- SHA-256 padding (FIPS 180-4 §5.1.1): `0x80`, zeros, 64-bit bit length. -/
def sha256Pad (bytes : List Nat) : List Nat :=
  let len := bytes.length
  bytes ++ 128 :: List.replicate ((120 - (len + 1) % 64) % 64) 0 ++ be64 (8 * len)

/-- Fold the compression function over the blocks (fuel = number of blocks). -/
def sha256Blocks : Nat → Sha2St → List Nat → Sha2St
  | 0, st, _ => st
  | fuel + 1, st, bytes =>
      sha256Blocks fuel (sha256Compress st (bytes.take 64)) (bytes.drop 64)

/-- Lowercase hexadecimal digit. -/
def hexChar (n : Nat) : Char :=
  if n < 10 then Char.ofNat (48 + n) else Char.ofNat (87 + n)

/-- Eight lowercase hex characters of a 32-bit word, most significant first. -/
def word8Hex (x : Nat) : List Char :=
  [hexChar (x / 268435456 % 16), hexChar (x / 16777216 % 16),
   hexChar (x / 1048576 % 16), hexChar (x / 65536 % 16),
   hexChar (x / 4096 % 16), hexChar (x / 256 % 16),
   hexChar (x / 16 % 16), hexChar (x % 16)]

/-- `hashlib.sha256(bytes).hexdigest()`: the 64-character lowercase hex
digest of a byte list. -/
def sha256Hex (bytes : List Nat) : String :=
  let padded := sha256Pad bytes
  let st := sha256Blocks (padded.length / 64) sha256IV padded
  String.mk (word8Hex st.a ++ word8Hex st.b ++ word8Hex st.c ++ word8Hex st.d ++
             word8Hex st.e ++ word8Hex st.f ++ word8Hex st.g ++ word8Hex st.h)

/-- UTF-8 encoding of one character, as a list of byte values. -/
def utf8Encode (c : Char) : List Nat :=
  let n := c.toNat
  if n < 128 then [n]
  else if n < 2048 then [192 + n / 64, 128 + n % 64]
  else if n < 65536 then [224 + n / 4096, 128 + n / 64 % 64, 128 + n % 64]
  else [240 + n / 262144, 128 + n / 4096 % 64, 128 + n / 64 % 64, 128 + n % 64]

/-- UTF-8 bytes of a string (Python `s.encode("utf-8")`). -/
def strBytes (s : String) : List Nat :=
  s.data.foldr (fun c acc => utf8Encode c ++ acc) []

/-- `hashlib.sha256(s.encode("utf-8")).hexdigest()`. -/
def sha256HexOfString (s : String) : String := sha256Hex (strBytes s)

/-! ## Verhoeff checksum (`sdk/validators/verhoeff.py`)

The digit-level core works on `List (Fin 10)`; the string-level wrappers
mirror the Python functions including the partiality of `int()`. -/

namespace Verhoeff

/-- The dihedral-group D5 multiplication table `Verhoeff.d`. -/
def d : Fin 10 → Fin 10 → Fin 10 :=
  ![![0, 1, 2, 3, 4, 5, 6, 7, 8, 9],
    ![1, 2, 3, 4, 0, 6, 7, 8, 9, 5],
    ![2, 3, 4, 0, 1, 7, 8, 9, 5, 6],
    ![3, 4, 0, 1, 2, 8, 9, 5, 6, 7],
    ![4, 0, 1, 2, 3, 9, 5, 6, 7, 8],
    ![5, 9, 8, 7, 6, 0, 4, 3, 2, 1],
    ![6, 5, 9, 8, 7, 1, 0, 4, 3, 2],
    ![7, 6, 5, 9, 8, 2, 1, 0, 4, 3],
    ![8, 7, 6, 5, 9, 3, 2, 1, 0, 4],
    ![9, 8, 7, 6, 5, 4, 3, 2, 1, 0]]

/-- The permutation table `Verhoeff.p`. -/
def p : Fin 8 → Fin 10 → Fin 10 :=
  ![![0, 1, 2, 3, 4, 5, 6, 7, 8, 9],
    ![1, 5, 7, 6, 2, 8, 3, 0, 9, 4],
    ![5, 8, 0, 3, 7, 9, 6, 1, 4, 2],
    ![8, 9, 1, 6, 0, 4, 3, 5, 2, 7],
    ![9, 4, 5, 3, 1, 2, 6, 8, 7, 0],
    ![4, 2, 8, 6, 5, 7, 3, 9, 0, 1],
    ![2, 7, 9, 3, 8, 0, 6, 4, 1, 5],
    ![7, 0, 4, 6, 9, 1, 3, 2, 5, 8]]

/-- The inverse table `Verhoeff.inv`. -/
def inv : Fin 10 → Fin 10 := ![0, 4, 3, 2, 1, 5, 6, 7, 8, 9]

/-- Row `i % 8` of the permutation table (the Python code indexes
`p[i % 8]`). -/
def pRow (i : Nat) : Fin 10 → Fin 10 := p ⟨i % 8, Nat.mod_lt _ (by decide)⟩

/-- The checksum loop `checksum = d[checksum][p[i % 8][digit]]`, over a list
of digits that is already in the iteration order (`reversed(number_str)`),
starting at position `i`. -/
def chk : Nat → Fin 10 → List (Fin 10) → Fin 10
  | _, c, [] => c
  | i, c, x :: xs => chk (i + 1) (d c (pRow i x)) xs

/-- `Verhoeff.validate` on a digit list: empty input is invalid, otherwise
the checksum over the reversed digits (positions from 0) must be 0. -/
def validateDigits (ds : List (Fin 10)) : Bool :=
  !ds.isEmpty && (chk 0 0 ds.reverse == 0)

/-- `Verhoeff.generate_check_digit` on a digit list: the Python function
raises `ValueError` on empty input (hence `Option`); otherwise it runs the
same loop with positions shifted by `+1` and returns `inv` of the result. -/
def generate_check_digit (ds : List (Fin 10)) : Option (Fin 10) :=
  if ds.isEmpty then none else some (inv (chk 1 0 ds.reverse))

/-- Convert a character to a checksum digit, modelling `int(c)`. -/
def digitFin (c : Char) : Option (Fin 10) :=
  match pyDigitVal c with
  | none => none
  | some n => if h : n < 10 then some ⟨n, h⟩ else none

/-- `Verhoeff.validate` on a string (as a character list): rejects empty and
non-`isdigit` input, then runs the loop; the loop's `int(digit)` raises on
digit-classified characters outside `0`-`9`, hence `Option`. -/
def validateStr (chars : List Char) : Option Bool :=
  if chars.isEmpty then some false
  else if !chars.all pyIsDigit then some false
  else (chars.mapM digitFin).map (fun ds => validatePure ds)
where
  /-- checksum-is-zero test on converted digits -/
  validatePure (ds : List (Fin 10)) : Bool := chk 0 0 ds.reverse == 0

end Verhoeff

/-- `validate_aadhaar`: keep the `isdigit` characters, require exactly 12,
first digit not `0`/`1`, then the Verhoeff check (which may raise on
non-decimal digit characters — hence `Option`). -/
def validate_aadhaar (number : String) : Option Bool :=
  let clean := number.data.filter pyIsDigit
  if clean.length ≠ 12 then some false
  else if clean.headD ' ' = '0' || clean.headD ' ' = '1' then some false
  else Verhoeff.validateStr clean

/-! ## Luhn checksum (`sdk/validators/luhn.py`) -/

namespace Luhn

/-- The contribution of the digit with left-to-right index `i` and value `v`
when the doubling parity is `parity` (`d *= 2; if d > 9: d -= 9`). -/
def luhnDigit (parity i v : Nat) : Nat :=
  if i % 2 = parity then (if v * 2 > 9 then v * 2 - 9 else v * 2) else v

/-- The Luhn total over the characters from index `i`, with Python's
`int(digit)` partiality. -/
def sumFrom (parity : Nat) : Nat → List Char → Option Nat
  | _, [] => some 0
  | i, c :: cs => do
      let v ← pyDigitVal c
      let rest ← sumFrom parity (i + 1) cs
      pure (luhnDigit parity i v + rest)

/-- `Luhn.validate`: reject empty/non-`isdigit`/short input, then test the
total modulo 10. -/
def validate (chars : List Char) : Option Bool :=
  if chars.isEmpty || !chars.all pyIsDigit then some false
  else if chars.length < 13 then some false
  else (sumFrom (chars.length % 2) 0 chars).map (fun total => total % 10 == 0)

end Luhn

/-- `validate_credit_card`: keep `isdigit` characters, require 13-19 of
them, then run the Luhn check. -/
def validate_credit_card (number : String) : Option Bool :=
  let clean := number.data.filter pyIsDigit
  if clean.length < 13 || clean.length > 19 then some false
  else Luhn.validate clean

/-! ## Dummy-data detector (`sdk/validators/dummy_detector.py`) -/

/-- Strictly ascending arithmetic chain with mod-10 wraparound
(`digit[i+1] == (digit[i] + 1) % 10`). -/
def chainAsc : List Nat → Bool
  | a :: b :: rest => (b == (a + 1) % 10) && chainAsc (b :: rest)
  | _ => true

/-- Strictly descending chain with mod-10 wraparound
(`digit[i+1] == (digit[i] - 1 + 10) % 10`). -/
def chainDesc : List Nat → Bool
  | a :: b :: rest => (b == (a + 9) % 10) && chainDesc (b :: rest)
  | _ => true

/-- `is_dummy_data`.  The digit-list comprehension applies `int()` to every
`isdigit` character, which raises on non-decimal digit characters — hence
`Option`. -/
def is_dummy_data (text : String) : Option Bool :=
  let l := text.data
  if l.length < 3 then some false
  else if distinctCount l = 1 then some true
  else
    ((l.filter pyIsDigit).mapM pyDigitVal).map (fun digits =>
      if digits.length ≥ 4 && (chainAsc digits || chainDesc digits) then true
      else
        let half := l.length / 2
        if l.length ≥ 6 && (l.take half == (l.drop half).take half) then true
        else
          let triplet := l.take 3
          if l.length ≥ 9 &&
             (l == (List.replicate (l.length / 3) triplet).flatten ++ triplet.take (l.length % 3))
          then true
          else if l.length ≥ 10 && distinctCount l ≤ 2 then true
          else false)

/-! ## PAN validator (`sdk/validators/pan.py`) -/

namespace PANValidator

/-- Valid entity-type codes for the 4th character. -/
def VALID_ENTITY_TYPES : List Char := ['P', 'C', 'H', 'F', 'A', 'T', 'B', 'L', 'J', 'G']

/-- Four consecutive identical characters somewhere in the list (the
`range(len - 3)` window scan). -/
def fourRun : List Char → Bool
  | a :: b :: c :: d :: rest => (a = b && b = c && c = d) || fourRun (b :: c :: d :: rest)
  | _ => false

/-- Character value for the weighted check: letters map to `A=10..Z=35`,
anything else goes through `int()` (partial). -/
def panCharVal (c : Char) : Option Nat :=
  if c.isAlpha then some (c.toNat - 65 + 10) else pyDigitVal c

/-- Weighted sum of the first 9 characters with weights 1..9. -/
def weightedSum : Nat → List Char → Option Nat
  | _, [] => some 0
  | w, c :: cs => do
      let v ← panCharVal c
      let rest ← weightedSum (w + 1) cs
      pure (v * w + rest)

/-- `PANValidator._validate_check_digit`: weighted modulo-26 check of the
10th character. -/
def validate_check_digit (clean : List Char) : Option Bool := do
  let total ← weightedSum 1 (clean.take 9)
  pure (decide (clean.getD 9 ' ' = Char.ofNat (total % 26 + 65)))

/-- `PANValidator.validate` (with its `context` argument). -/
def validate (pan context : String) : Option Bool :=
  if pan = "" then some false
  else
    let clean := (pyUpper pan).data.filter (fun c => c ≠ ' ' && c ≠ '-')
    if clean.length ≠ 10 then some false
    else if !((clean.take 5).all Char.isAlpha && ((clean.drop 5).take 4).all pyIsDigit &&
              (clean.getD 9 ' ').isAlpha) then some false
    else if !(VALID_ENTITY_TYPES.contains (clean.getD 3 ' ')) then some false
    else
      let first5 := clean.take 5
      if distinctCount first5 = 1 then some false
      else if fourRun first5 then some false
      else if ["ABCDE", "BCDEF", "CDEFG", "DEFGH", "EFGHI", "FGHIJ"].contains
                (String.mk first5) then some false
      else if distinctCount ((clean.drop 5).take 4) = 1 then some false
      else if context ≠ "" &&
              (["test_", "example", "sample", "demo", "dummy", "def ", "class ",
                "import ", "\"\"\"", "\x27\x27\x27", ".py", ".js", ".java",
                "example", "test"].any
                (fun ind => strOccursIn (pyLower context) (pyLower ind)))
      then some false
      else validate_check_digit clean

end PANValidator

/-- `validate_pan` (the `VALIDATOR_MAP` entry calls it with the default
empty `context`). -/
def validate_pan (pan context : String) : Option Bool := PANValidator.validate pan context

/-! ## Indian phone validator (`sdk/validators/phone.py`) -/

namespace IndianPhoneValidator

/-- Digit character for a value `n < 10`. -/
def digitChar (n : Nat) : Char := Char.ofNat (48 + n)

/-- `_clean_phone`: drop formatting characters, then strip a `+91`, `91`, or
leading-`0` country/STD prefix. -/
def clean_phone (phone : String) : List Char :=
  let cl := phone.data.filter (fun c => c ≠ ' ' && c ≠ '-' && c ≠ '(' && c ≠ ')')
  if cl.take 3 = ['+', '9', '1'] then cl.drop 3
  else if cl.take 2 = ['9', '1'] && cl.length = 12 then cl.drop 2
  else if cl.take 1 = ['0'] && cl.length = 11 then cl.drop 1
  else cl

/-- `_is_invalid_pattern`: all-same, sequential (any start, increasing or
decreasing, mod-10), or five repetitions of a two-character pair. -/
def is_invalid_pattern (phone : List Char) : Bool :=
  distinctCount phone = 1 ||
  (List.range 10).any (fun start =>
    phone = (List.range 10).map (fun i => digitChar ((start + i) % 10))) ||
  (List.range 10).any (fun start =>
    phone = (List.range 10).map (fun i => digitChar ((start + 20 - i) % 10))) ||
  (phone.length = 10 && phone = (List.replicate 5 (phone.take 2)).flatten)

/-- `IndianPhoneValidator.validate`: regex `^\d{10}$` (ASCII fragment),
prefix `6`-`9`, and the anti-dummy filter. -/
def validate (phone : String) : Bool :=
  if phone = "" then false
  else
    let clean := clean_phone phone
    if !(clean.length = 10 && clean.all Char.isDigit) then false
    else if !(['6', '7', '8', '9'].contains (clean.headD ' ')) then false
    else if is_invalid_pattern clean then false
    else true

end IndianPhoneValidator

/-- `validate_indian_phone`. -/
def validate_indian_phone (phone : String) : Bool := IndianPhoneValidator.validate phone

/-! ## Email validator (`sdk/validators/email.py`) -/

namespace EmailValidator

/-- Split a character list on a separator character (Python `str.split`). -/
def splitOnChar (sep : Char) (l : List Char) : List (List Char) :=
  l.foldr
    (fun c acc =>
      if c = sep then [] :: acc
      else match acc with
        | h :: t => (c :: h) :: t
        | [] => [[c]])
    [[]]

/-- Local-part characters `[a-zA-Z0-9._%+-]`. -/
def localChar (c : Char) : Bool :=
  c.isAlphanum || c = '.' || c = '_' || c = '%' || c = '+' || c = '-'

/-- Domain characters `[a-zA-Z0-9.-]`. -/
def domainChar (c : Char) : Bool := c.isAlphanum || c = '.' || c = '-'

/-- The compiled pattern `^[a-zA-Z0-9._%+-]+@[a-zA-Z0-9.-]+\.[a-zA-Z]{2,}$`
(ASCII regex semantics): one `@`, a nonempty legal local part, and a domain
whose post-last-dot segment is two or more letters with at least one legal
character before that dot. -/
def emailPattern (l : List Char) : Bool :=
  match splitOnChar '@' l with
  | [localPart, dom] =>
      localPart ≠ [] && localPart.all localChar &&
      dom.all domainChar &&
      (let segs := splitOnChar '.' dom
       let tld := segs.getLastD []
       segs.length ≥ 2 && tld.length ≥ 2 && tld.all Char.isAlpha &&
       dom.length ≥ tld.length + 2)
  | _ => false

/-- `_is_invalid_pattern`: double dots, local part or domain starting or
ending with a dot, domain starting with a hyphen.  (Only called after the
`@`-count check, so the split has exactly two parts.) -/
def is_invalid_pattern (email : List Char) : Bool :=
  occursIn email ['.', '.'] ||
  (match splitOnChar '@' email with
   | [localPart, dom] =>
       localPart.headD ' ' = '.' || localPart.getLastD ' ' = '.' ||
       dom.headD ' ' = '.' || dom.getLastD ' ' = '.' || dom.headD ' ' = '-'
   | _ => false)

/-- `EmailValidator.validate`. -/
def validate (email : String) : Bool :=
  if email = "" then false
  else
    let e := (pyLower (pyStrip email)).data
    if e.length > 254 then false
    else if (e.filter (· = '@')).length ≠ 1 then false
    else if !emailPattern e then false
    else
      match splitOnChar '@' e with
      | [localPart, dom] =>
          if localPart.length = 0 || localPart.length > 64 then false
          else if dom.length < 3 || dom.length > 253 then false
          else if !dom.contains '.' then false
          else if is_invalid_pattern e then false
          else true
      | _ => false

end EmailValidator

/-- `validate_email`. -/
def validate_email (email : String) : Bool := EmailValidator.validate email

/-! ## UPI validator (`sdk/validators/upi.py`) -/

namespace UPIValidator

/-- `^[a-zA-Z0-9._-]+@[a-zA-Z0-9]+$`. -/
def upiPattern (l : List Char) : Bool :=
  match EmailValidator.splitOnChar '@' l with
  | [user, provider] =>
      user ≠ [] && user.all (fun c => c.isAlphanum || c = '.' || c = '_' || c = '-') &&
      provider ≠ [] && provider.all Char.isAlphanum
  | _ => false

/-- `UPIValidator.validate`. -/
def validate (upi : String) : Bool :=
  if upi = "" then false
  else
    let u := (pyLower (pyStrip upi)).data
    if (u.filter (· = '@')).length ≠ 1 then false
    else if !upiPattern u then false
    else
      match EmailValidator.splitOnChar '@' u with
      | [user, provider] =>
          if user.length = 0 || user.length > 100 then false
          else if provider.length < 2 || provider.length > 50 then false
          else true
      | _ => false

end UPIValidator

/-- `validate_upi`. -/
def validate_upi (upi : String) : Bool := UPIValidator.validate upi

/-! ## Passport validator (`sdk/validators/passport.py`) -/

namespace IndianPassportValidator

/-- The union of the diplomatic (`J`, `Z`) and personal
(`ABCDEFGHIKLMNOPQRSTUVWX`) type letters. -/
def legalTypes : List Char :=
  ['A', 'B', 'C', 'D', 'E', 'F', 'G', 'H', 'I', 'K', 'L', 'M', 'N', 'O', 'P',
   'Q', 'R', 'S', 'T', 'U', 'V', 'W', 'X', 'J', 'Z']

/-- `IndianPassportValidator.validate`: uppercase, drop spaces and hyphens,
`^[A-Z][0-9]{7}$`, and a legal type letter. -/
def validate (passport : String) : Bool :=
  if passport = "" then false
  else
    let clean := (pyUpper passport).data.filter (fun c => c ≠ ' ' && c ≠ '-')
    if !(clean.length = 8 && (clean.headD ' ').isUpper && (clean.drop 1).all Char.isDigit)
    then false
    else legalTypes.contains (clean.headD ' ')

end IndianPassportValidator

/-- `validate_indian_passport`. -/
def validate_indian_passport (passport : String) : Bool :=
  IndianPassportValidator.validate passport

/-! ## IFSC validator (`sdk/validators/ifsc.py`) -/

/-- `validate_ifsc`: uppercase, drop spaces and hyphens, 11 characters,
`^[A-Z]{4}0[A-Z0-9]{6}$` (the extra 5th-character check is subsumed). -/
def validate_ifsc (ifsc : String) : Bool :=
  if ifsc = "" then false
  else
    let clean := (pyUpper ifsc).data.filter (fun c => c ≠ ' ' && c ≠ '-')
    if clean.length ≠ 11 then false
    else if !((clean.take 4).all Char.isUpper && clean.getD 4 ' ' = '0' &&
              ((clean.drop 5).all (fun c => c.isUpper || c.isDigit))) then false
    else if clean.getD 4 ' ' ≠ '0' then false
    else true

/-! ## Bank-account validator (`sdk/validators/bank_account.py`) -/

/-- `validate_bank_account`: drop spaces and hyphens, `^\d+$` (ASCII
fragment), length 9-18, reject all-same-character (which covers the
separate all-zeros check). -/
def validate_bank_account (account : String) : Bool :=
  if account = "" then false
  else
    let clean := account.data.filter (fun c => c ≠ ' ' && c ≠ '-')
    if !(clean ≠ [] && clean.all Char.isDigit) then false
    else if clean.length < 9 || clean.length > 18 then false
    else if distinctCount clean = 1 || clean = List.replicate clean.length '0' then false
    else true

/-! ## Voter-ID validator (`sdk/validators/voter_id.py`) -/

/-- `validate_voter_id`: uppercase, drop spaces, hyphens and slashes,
10 characters, `^[A-Z]{3}[0-9]{7}$`. -/
def validate_voter_id (voter_id : String) : Bool :=
  if voter_id = "" then false
  else
    let clean := (pyUpper voter_id).data.filter (fun c => c ≠ ' ' && c ≠ '-' && c ≠ '/')
    if clean.length ≠ 10 then false
    else (clean.take 3).all Char.isUpper && (clean.drop 3).all Char.isDigit

/-! ## Driving-license validator (`sdk/validators/driving_license.py`) -/

namespace DrivingLicenseValidator

/-- `^[A-Z]{2}[-\s]?[0-9]{13}$`: two uppercase letters, an optional hyphen
or whitespace separator, thirteen digits. -/
def altPattern (l : List Char) : Bool :=
  ((l.take 2).all Char.isUpper) &&
  (let rest := l.drop 2
   (rest.length = 13 && rest.all Char.isDigit) ||
   (rest.length = 14 && (rest.headD ' ' = '-' || isPyWhitespace (rest.headD ' ')) &&
    (rest.drop 1).all Char.isDigit))

/-- `DrivingLicenseValidator.validate`. -/
def validate (dl : String) : Bool :=
  if dl = "" then false
  else
    let clean0 := (pyUpper (pyStrip dl)).data
    let clean := if altPattern clean0
                 then clean0.filter (fun c => c ≠ '-' && c ≠ ' ')
                 else clean0
    if clean.length ≠ 15 then false
    else (clean.take 2).all Char.isUpper && (clean.drop 2).all Char.isDigit

end DrivingLicenseValidator

/-- `validate_driving_license`. -/
def validate_driving_license (dl : String) : Bool := DrivingLicenseValidator.validate dl

/-! ## Locked PII scope (`sdk/pii_scope.py`) -/

/-- The 11 locked PII types. -/
def LOCKED_PII_TYPES : List String :=
  ["IN_PAN", "IN_PASSPORT", "IN_AADHAAR", "CREDIT_CARD", "IN_UPI", "IN_IFSC",
   "IN_BANK_ACCOUNT", "IN_PHONE", "EMAIL_ADDRESS", "IN_VOTER_ID", "IN_DRIVING_LICENSE"]

/-- `is_allowed_pii`: membership of `pii_type.upper().strip()` in the locked
set. -/
def is_allowed_pii (pii_type : String) : Bool :=
  LOCKED_PII_TYPES.contains (pyStrip (pyUpper pii_type))

/-! ## Context validator (`sdk/validators/context_validator.py`) -/

/-- `TEST_KEYWORDS`. -/
def TEST_KEYWORDS : List String :=
  ["test", "testing", "dummy", "sample", "example", "fake", "mock",
   "demo", "sandbox", "dev", "development", "staging", "qa"]

/-- `PRODUCTION_KEYWORDS`. -/
def PRODUCTION_KEYWORDS : List String :=
  ["production", "prod", "live", "customer", "client", "user",
   "employee", "patient", "member", "account", "real"]

/-- `NEGATIVE_KEYWORDS`. -/
def NEGATIVE_KEYWORDS : List String :=
  ["invalid", "incorrect", "wrong", "error", "failed", "rejected"]

/-- All same character (`^c{n}$`). -/
def allEq (c : Char) (l : List Char) : Bool := l.all (· == c)

/-- The compiled `TEST_DATA_PATTERNS` for one PII type applied to the
cleaned value.  Each pattern is anchored at both ends; `IGNORECASE` is
realised by comparing the upper/lower-cased copy. -/
def TEST_DATA_PATTERNS_match (pii_type : String) (l : List Char) : Bool :=
  if pii_type = "IN_PHONE" then
    (l.length = 10 && (allEq '9' l || allEq '0' l || allEq '1' l)) ||
    l = "1234567890".data || l = "0987654321".data
  else if pii_type = "EMAIL_ADDRESS" then
    let lo := l.map pyLowerChar
    lo = "test@test.com".data || lo = "test@example.com".data ||
    lo = "dummy@dummy.com".data || lo = "sample@sample.com".data ||
    lo = "foo@bar.com".data ||
    "noreply@".data.isPrefixOf lo || "no-reply@".data.isPrefixOf lo
  else if pii_type = "IN_AADHAAR" then
    (l.length = 12 && (allEq '1' l || allEq '0' l || allEq '9' l)) ||
    l = "123456789012".data
  else if pii_type = "IN_PAN" then
    let up := l.map pyUpperChar
    up = "AAAAA0000A".data || up = "ZZZZZ9999Z".data ||
    (match up with
     | 'T' :: 'E' :: 'S' :: 'T' :: a :: '0' :: '0' :: '0' :: '0' :: [b] =>
         a.isUpper && b.isUpper
     | _ => false)
  else if pii_type = "CREDIT_CARD" then
    (l.length = 16 && (allEq '1' l || allEq '0' l)) || l = "1234567890123456".data
  else if pii_type = "IN_BANK_ACCOUNT" then
    (l.length ≥ 10 && (allEq '0' l || allEq '1' l)) || l = "123456789012345".data
  else false

/-- `ContextValidator.is_test_data` (with the instance's exclusion list):
clean the value, try the per-type patterns, then the exclusion list. -/
def is_test_data (excl : List String) (value pii_type : String) : Bool :=
  let cleaned := dropChars [' ', '-'] (pyStrip value)
  TEST_DATA_PATTERNS_match pii_type cleaned.data ||
  excl.contains value || excl.contains cleaned

/-- A `\w` word character (ASCII fragment of the Unicode class). -/
def wordChar (c : Char) : Bool := c.isAlphanum || c = '_'

/-- `re.findall(r"\b\w+\b", context)`: the maximal runs of word
characters. -/
def wordsAux : List Char → List Char → List String
  | [], acc => if acc.isEmpty then [] else [String.mk acc.reverse]
  | c :: rest, acc =>
      if wordChar c then wordsAux rest (c :: acc)
      else if acc.isEmpty then wordsAux rest []
      else String.mk acc.reverse :: wordsAux rest []

/-- Tokenize a string into words. -/
def wordsOf (l : List Char) : List String := wordsAux l []

/-- `ContextValidator.extract_context_keywords` (default window 100). -/
def extract_context_keywords (text : String) (start stop window : Nat) : List String :=
  let contextStart := start - window
  let contextStop := min text.length (stop + window)
  let context := pyLower (pySlice text contextStart contextStop)
  (wordsOf context.data).filter
    (fun w => TEST_KEYWORDS.contains w || PRODUCTION_KEYWORDS.contains w ||
              NEGATIVE_KEYWORDS.contains w)

/-- `ContextValidator.adjust_confidence_by_context`.  Python floats are
modelled as exact rationals; each keyword *category* contributes one
multiplication by `1 − 0.15·t`, `1 + 0.05·p`, `1 − 0.25·n` (skipped when the
count is zero), and the result is clamped to `[0, 1]`. -/
def adjust_confidence_by_context (base_confidence : ℚ) (keywords : List String) : ℚ :=
  let testCount := keywords.countP (fun k => TEST_KEYWORDS.contains k)
  let prodCount := keywords.countP (fun k => PRODUCTION_KEYWORDS.contains k)
  let negCount := keywords.countP (fun k => NEGATIVE_KEYWORDS.contains k)
  let c1 := if testCount > 0 then base_confidence * (1 - testCount * mkRat 15 100)
            else base_confidence
  let c2 := if prodCount > 0 then c1 * (1 + prodCount * mkRat 5 100) else c1
  let c3 := if negCount > 0 then c2 * (1 - negCount * mkRat 25 100) else c2
  max 0 (min 1 c3)

/-- `", ".join(keywords) if keywords else "none"`. -/
def keywordStr (keywords : List String) : String :=
  if keywords.isEmpty then "none" else String.intercalate ", " keywords

/-- `ContextValidator.validate_with_context`: returns
`(is_valid, adjusted_confidence, rejection_reason)`. -/
def validate_with_context (excl : List String) (value pii_type text : String)
    (start stop : Nat) (base_confidence : ℚ) : Bool × ℚ × String :=
  if is_test_data excl value pii_type then
    (false, 0, "Rejected: Test data pattern detected (" ++ value ++ ")")
  else
    let keywords := extract_context_keywords text start stop 100
    let adjusted := adjust_confidence_by_context base_confidence keywords
    if adjusted < mkRat 1 2 then
      (false, adjusted,
       "Rejected: Low confidence after context analysis (keywords: " ++
         keywordStr keywords ++ ")")
    else (true, adjusted, "Valid")

/-! ## Verified-finding schema (`sdk/schema.py`) -/

/-- JSON values, for modelling `to_dict`. -/
inductive JVal where
  | null : JVal
  | str : String → JVal
  | num : ℚ → JVal
  | arr : List JVal → JVal
  | obj : List (String × JVal) → JVal

/-- `SourceInfo`. -/
structure SourceInfo where
  path : String
  line : Option Nat
  column : Option String
  table : Option String
  data_source : String
  host : String
deriving DecidableEq

/-- `dataclasses.asdict` of a `SourceInfo`. -/
def SourceInfo.asdict (s : SourceInfo) : JVal :=
  .obj [("path", .str s.path),
        ("line", match s.line with | none => .null | some n => .num n),
        ("column", match s.column with | none => .null | some c => .str c),
        ("table", match s.table with | none => .null | some t => .str t),
        ("data_source", .str s.data_source),
        ("host", .str s.host)]

/-- `VerifiedFinding`.  `confidence_score` is the dynamic attribute that
`validate_and_create_finding` sets on the object after construction; it is
not a dataclass field and does not appear in `to_dict`. -/
structure VerifiedFinding where
  pii_type : String
  value_hash : String
  source : SourceInfo
  validators_passed : List String
  validation_method : String
  ml_confidence : ℚ
  ml_entity_type : String
  context_excerpt : String
  context_keywords : List String
  pattern_name : String
  detected_at : String
  scanner_version : String
  confidence_score : Option ℚ
deriving DecidableEq

/-- `VerifiedFinding.to_dict`. -/
def VerifiedFinding.to_dict (f : VerifiedFinding) : List (String × JVal) :=
  [("pii_type", .str f.pii_type),
   ("value_hash", .str f.value_hash),
   ("source", f.source.asdict),
   ("validators_passed", .arr (f.validators_passed.map .str)),
   ("validation_method", .str f.validation_method),
   ("ml_confidence", .num f.ml_confidence),
   ("ml_entity_type", .str f.ml_entity_type),
   ("context_excerpt", .str f.context_excerpt),
   ("context_keywords", .arr (f.context_keywords.map .str)),
   ("pattern_name", .str f.pattern_name),
   ("detected_at", .str f.detected_at),
   ("scanner_version", .str f.scanner_version)]

/-- A Presidio `RecognizerResult`: entity type, span, score.  (`end` is a
Lean keyword, so the span's end offset is called `stop`.) -/
structure RecognizerResult where
  entity_type : String
  start : Nat
  stop : Nat
  score : ℚ

/-- `VerifiedFinding.create_from_analysis`.  `detected_at` is the wall
clock, passed in as `now`. -/
def VerifiedFinding.create_from_analysis (r : RecognizerResult) (text : String)
    (source_info : SourceInfo) (pattern_name : String) (validators : List String)
    (now : String) : VerifiedFinding :=
  let matched_value := pySlice text r.start r.stop
  let value_hash := sha256HexOfString matched_value
  let contextStart := r.start - 50
  let contextStop := min text.length (r.stop + 50)
  let context_excerpt := pySlice text contextStart contextStop
  let lower_context := pyLower context_excerpt
  let context_keywords :=
    (["aadhaar", "pan", "card", "number", "id", "uid", "customer"]).filter
      (fun k => strOccursIn lower_context k)
  { pii_type := r.entity_type
    value_hash := value_hash
    source := source_info
    validators_passed := validators
    validation_method := if validators.isEmpty then "ml" else "mathematical"
    ml_confidence := r.score
    ml_entity_type := r.entity_type
    context_excerpt := context_excerpt
    context_keywords := context_keywords
    pattern_name := pattern_name
    detected_at := now
    scanner_version := "2.0-sdk"
    confidence_score := none }

/-! ## Validation pipeline (`sdk/validation_pipeline.py`) -/

/-- `VALIDATOR_MAP`: PII type → (function `__name__`, validator).  The
validators that can raise return `Option Bool`; the total ones are wrapped
in `some`. -/
def VALIDATOR_MAP : List (String × String × (String → Option Bool)) :=
  [("CREDIT_CARD", "validate_credit_card", validate_credit_card),
   ("IN_AADHAAR", "validate_aadhaar", validate_aadhaar),
   ("IN_PAN", "validate_pan", fun s => validate_pan s ""),
   ("IN_PHONE", "validate_indian_phone", fun s => some (validate_indian_phone s)),
   ("EMAIL_ADDRESS", "validate_email", fun s => some (validate_email s)),
   ("IN_PASSPORT", "validate_indian_passport", fun s => some (validate_indian_passport s)),
   ("IN_UPI", "validate_upi", fun s => some (validate_upi s)),
   ("IN_IFSC", "validate_ifsc", fun s => some (validate_ifsc s)),
   ("IN_BANK_ACCOUNT", "validate_bank_account", fun s => some (validate_bank_account s)),
   ("IN_VOTER_ID", "validate_voter_id", fun s => some (validate_voter_id s)),
   ("IN_DRIVING_LICENSE", "validate_driving_license", fun s => some (validate_driving_license s))]

/-- `get_validator`: dictionary lookup on `pii_type.upper()`. -/
def get_validator (pii_type : String) : Option (String × (String → Option Bool)) :=
  (VALIDATOR_MAP.find? (fun e => e.1 = pyUpper pii_type)).map (·.2)

/-- `validate_and_create_finding`, instrumented: besides the result it
returns the trace of validation functions actually invoked (the per-type
validator's `__name__` and `"validate_with_context"` for the context
validator).  An uncaught Python exception inside a validator is
`Except.error ()`. -/
def validate_and_create_finding (excl : List String) (r : RecognizerResult)
    (text : String) (source_info : SourceInfo) (pattern_name : String) (now : String) :
    Except Unit (Option VerifiedFinding) × List String :=
  let pii_type := r.entity_type
  if !is_allowed_pii pii_type then (.ok none, [])
  else
    let matched_value := pySlice text r.start r.stop
    match get_validator pii_type with
    | some (vname, vfn) =>
        match vfn matched_value with
        | none => (.error (), [vname])
        | some false => (.ok none, [vname])
        | some true =>
            let ctx := validate_with_context excl matched_value pii_type text
                         r.start r.stop r.score
            if ctx.1 then
              let verified := VerifiedFinding.create_from_analysis r text source_info
                                pattern_name [vname] now
              (.ok (some { verified with confidence_score := some ctx.2.1 }),
               [vname, "validate_with_context"])
            else (.ok none, [vname, "validate_with_context"])
    | none =>
        let ctx := validate_with_context excl matched_value pii_type text
                     r.start r.stop r.score
        if ctx.1 then
          let verified := VerifiedFinding.create_from_analysis r text source_info
                            pattern_name [] now
          (.ok (some { verified with confidence_score := some ctx.2.1 }),
           ["validate_with_context"])
        else (.ok none, ["validate_with_context"])

/-! ## Masking strategies (`sdk/masking/strategies.py`) -/

/-- The state of a `TokenizeStrategy` instance: its secret key. -/
structure TokenizeStrategy where
  secret_key : String
deriving DecidableEq

/-- `TokenizeStrategy.__init__`: `self.secret_key = secret_key or
"default_secret_key_change_in_production"` — both `None` and the empty
string (falsy) fall back to the built-in default. -/
def TokenizeStrategy.init (secret_key : Option String) : TokenizeStrategy :=
  match secret_key with
  | none => ⟨"default_secret_key_change_in_production"⟩
  | some k => if k = "" then ⟨"default_secret_key_change_in_production"⟩ else ⟨k⟩

/-- `TokenizeStrategy.mask`: `"TOKEN_" +
sha256(f"{secret_key}:{value}:{pii_type}").hexdigest()[:16].upper()`. -/
def TokenizeStrategy.mask (st : TokenizeStrategy) (value pii_type : String) : String :=
  let combined := st.secret_key ++ ":" ++ value ++ ":" ++ pii_type
  let token := pyUpper (String.mk ((sha256HexOfString combined).data.take 16))
  "TOKEN_" ++ token

/-! ## Filesystem masking adapter (`sdk/masking/adapters/filesystem.py`)

The filesystem is modelled as a partial map from paths to file contents;
every adapter method passes the filesystem state explicitly.  The
timestamped backup path that `create_backup` generates, and the wall clock,
are external nondeterminism and are passed in as arguments. -/

/-- The filesystem: path → contents. -/
abbrev FS := String → Option String

/-- Write (create or overwrite) one file. -/
def fsWrite (fs : FS) (path content : String) : FS :=
  fun q => if q = path then some content else fs q

/-- Adapter configuration (`__init__` arguments). -/
structure FsAdapterCfg where
  backup_dir : String
  backup_enabled : Bool
  dry_run : Bool

/-- `MaskingStatus`. -/
inductive MaskingStatus where
  | pending | in_progress | completed | failed | rolled_back
deriving DecidableEq

/-- `MaskingFinding` (the metadata dict is irrelevant here). -/
structure MaskingFinding where
  value : String
  pii_type : String
  location : String
  start_pos : Option Nat
  end_pos : Option Nat

/-- `MaskingResult` (duration/timestamp/details omitted: wall-clock). -/
structure MaskingResult where
  status : MaskingStatus
  total_findings : Nat
  masked_count : Nat
  failed_count : Nat
  backup_location : Option String
  error_message : Option String

/-- `FilesystemMaskingAdapter.create_backup`: disabled → `None`; dry-run →
the dry-run marker path; otherwise `shutil.copy2(source, backupPath)`
(failing with `None` when the source does not exist). -/
def create_backup (cfg : FsAdapterCfg) (fs : FS) (source_location backupPath : String) :
    Option String × FS :=
  if !cfg.backup_enabled then (none, fs)
  else if cfg.dry_run then (some (cfg.backup_dir ++ "/dry_run_backup"), fs)
  else match fs source_location with
    | some content => (some backupPath, fsWrite fs backupPath content)
    | none => (none, fs)

/-- `_mask_text`'s content transformation: keep the findings that carry
positions, sort them by `start_pos` descending, and replace
`content[:start] + masked + content[end:]` from the highest offset down.
Returns the new content and the masked count. -/
def maskTextContent (strategy : String → String → String)
    (findings : List MaskingFinding) (content : String) : String × Nat :=
  let positioned := findings.filter (fun f => f.start_pos.isSome && f.end_pos.isSome)
  let sorted := positioned.mergeSort (fun a b => a.start_pos.getD 0 ≥ b.start_pos.getD 0)
  sorted.foldl
    (fun acc f =>
      let masked := strategy f.value f.pii_type
      (String.mk ((acc.1.data.take (f.start_pos.getD 0)) ++ masked.data ++
                  (acc.1.data.drop (f.end_pos.getD 0))),
       acc.2 + 1))
    (content, 0)

/-- `Path(p).suffix.lower()`: the (lowercased) extension of the last path
component. -/
def extOf (p : String) : String :=
  let base := (EmailValidator.splitOnChar '/' p.data).getLastD []
  let segs := EmailValidator.splitOnChar '.' base
  if segs.length ≥ 2 && segs.headD [] ≠ [] then
    pyLower (String.mk ('.' :: segs.getLastD []))
  else ""

/-- `FilesystemMaskingAdapter.mask_findings`.  The CSV- and JSON-specific
rewrites go through the Python `csv`/`json` standard libraries; their
content transformations are taken as parameters (`none` models an exception
during the rewrite, which yields a `FAILED` result without a write), so the
theorems below hold for every behaviour of those libraries.  `backupPath`
is the timestamped path the internal `create_backup` call generates. -/
def mask_findings (cfg : FsAdapterCfg)
    (csvFn jsonFn : List MaskingFinding → String → Option (String × Nat × Nat))
    (strategy : String → String → String) (fs : FS)
    (findings : List MaskingFinding) (source_location backupPath : String) :
    MaskingResult × FS :=
  let n := findings.length
  let backupStep : Option String × FS :=
    if cfg.backup_enabled then create_backup cfg fs source_location backupPath
    else (none, fs)
  let backup_location := backupStep.1
  let fs1 := backupStep.2
  if cfg.backup_enabled && backup_location.isNone && !cfg.dry_run then
    (⟨.failed, n, 0, n, none, some "Failed to create backup"⟩, fs1)
  else
    let ext := extOf source_location
    if ext = ".csv" || ext = ".json" then
      if cfg.dry_run then (⟨.completed, n, n, 0, backup_location, none⟩, fs1)
      else
        match fs1 source_location with
        | none => (⟨.failed, n, 0, n, backup_location, some "read failed"⟩, fs1)
        | some content =>
            match (if ext = ".csv" then csvFn findings content else jsonFn findings content) with
            | none => (⟨.failed, n, 0, n, backup_location, some "format rewrite failed"⟩, fs1)
            | some (content2, masked, failedCt) =>
                (⟨.completed, n, masked, failedCt, backup_location, none⟩,
                 fsWrite fs1 source_location content2)
    else
      if cfg.dry_run then (⟨.completed, n, n, 0, backup_location, none⟩, fs1)
      else
        match fs1 source_location with
        | none => (⟨.failed, n, 0, n, backup_location, some "read failed"⟩, fs1)
        | some content =>
            let res := maskTextContent strategy findings content
            (⟨.completed, n, res.2, 0, backup_location, none⟩,
             fsWrite fs1 source_location res.1)

/-- `FilesystemMaskingAdapter.rollback`: dry-run → `True` with no write;
otherwise `shutil.copy2(backup, target)`, `False` when the backup does not
exist. -/
def rollback (cfg : FsAdapterCfg) (fs : FS) (backup_location target_location : String) :
    Bool × FS :=
  if cfg.dry_run then (true, fs)
  else match fs backup_location with
    | some content => (true, fsWrite fs target_location content)
    | none => (false, fs)

/-- `FilesystemMaskingAdapter.verify_masking`: the masked file must contain
none of the original values. -/
def verify_masking (fs : FS) (source_location : String)
    (findings : List MaskingFinding) : Bool :=
  match fs source_location with
  | none => false
  | some content => findings.all (fun f => !(strOccursIn content f.value))

/-! ## Concrete scenario data and auxiliary instances -/

/-- Decidable equality for `Except`, so that concrete pipeline outputs can
be checked by `decide`. -/
instance instExceptDecEq {ε α : Type} [DecidableEq ε] [DecidableEq α] :
    DecidableEq (Except ε α) := fun x y =>
  match x, y with
  | .ok a, .ok b =>
      if h : a = b then isTrue (by rw [h])
      else isFalse (by intro e; injection e with e2; exact h e2)
  | .error a, .error b =>
      if h : a = b then isTrue (by rw [h])
      else isFalse (by intro e; injection e with e2; exact h e2)
  | .ok _, .error _ => isFalse (fun e => Except.noConfusion e)
  | .error _, .ok _ => isFalse (fun e => Except.noConfusion e)

/-- The source descriptor of the C1 scenario. -/
def c1_source : SourceInfo :=
  ⟨"/data/users.csv", some 42, some "aadhaar_number", none, "filesystem", "localhost"⟩

/-- The scanned text of the C1 scenario; the match spans offsets 9-21. -/
def c1_text : String := "Aadhaar: 234567890124 ok"

/-- The recognizer result of the C1 scenario. -/
def c1_result : RecognizerResult := ⟨"IN_AADHAAR", 9, 21, mkRat 95 100⟩

/-- The finding the pipeline emits in the C1 scenario, written out as a
literal record.  Note `context_excerpt`: it is the ±50-character window and
contains the raw matched value `234567890124` verbatim. -/
def c1_finding : VerifiedFinding :=
  { pii_type := "IN_AADHAAR"
    value_hash := "4607eae3c5a6cba155d61928b9a9f2f1280ef67554aaaa36b54f66ca35b39a3b"
    source := c1_source
    validators_passed := ["validate_aadhaar"]
    validation_method := "mathematical"
    ml_confidence := mkRat 95 100
    ml_entity_type := "IN_AADHAAR"
    context_excerpt := "Aadhaar: 234567890124 ok"
    context_keywords := ["aadhaar"]
    pattern_name := "Aadhaar"
    detected_at := "2026-01-01T00:00:00Z"
    scanner_version := "2.0-sdk"
    confidence_score := some (mkRat 95 100) }

/-- The scanned text of the C4 counterexample. -/
def c4_text : String := "ref 5454545454545454 xx"

/-- The Luhn sum as the claim states it: sum the digit values from
left-to-right index `i`, doubling (with `-9` overflow correction) every
digit whose index parity equals `parity`. -/
def luhnSumSpec (parity : Nat) : Nat → List Nat → Nat
  | _, [] => 0
  | i, v :: vs => Luhn.luhnDigit parity i v + luhnSumSpec parity (i + 1) vs


/-! # Theorems -/

/-! ## C3 — Verhoeff check-digit round trip -/

namespace Verhoeff

/-- `d` is the Cayley table of a group operation; associativity by
exhaustive check. -/
theorem d_assoc : ∀ a b c : Fin 10, d (d a b) c = d a (d b c) := by decide

/-- `0` is a left identity for `d`. -/
theorem d_zero_left : ∀ a : Fin 10, d 0 a = a := by decide

/-- `0` is a right identity for `d`. -/
theorem d_zero_right : ∀ a : Fin 10, d a 0 = a := by decide

/-- Row 0 of the permutation table is the identity. -/
theorem pRow_zero : ∀ x : Fin 10, pRow 0 x = x := by decide

/-- `inv` is the left-inverse table: `d[inv[a]][a] = 0`. -/
theorem d_inv_left : ∀ a : Fin 10, d (inv a) a = 0 := by decide

/-- The checksum loop started from `c` equals `c` composed (via `d`) with
the loop started from the identity. -/
theorem chk_factor (xs : List (Fin 10)) :
    ∀ (i : Nat) (c : Fin 10), chk i c xs = d c (chk i 0 xs) := by
  induction xs with
  | nil => intro i c; simp [chk, d_zero_right]
  | cons x xs ih =>
      intro i c
      calc chk i c (x :: xs) = chk (i + 1) (d c (pRow i x)) xs := rfl
        _ = d (d c (pRow i x)) (chk (i + 1) 0 xs) := ih _ _
        _ = d c (d (pRow i x) (chk (i + 1) 0 xs)) := d_assoc _ _ _
        _ = d c (chk (i + 1) (pRow i x) xs) := by rw [ih (i + 1) (pRow i x)]
        _ = d c (chk (i + 1) (d 0 (pRow i x)) xs) := by rw [d_zero_left]
        _ = d c (chk i 0 (x :: xs)) := rfl

end Verhoeff

/-- C3: for every digit string `s` (in particular every 12-digit string),
appending the generated Verhoeff check digit yields a string accepted by
Verhoeff validation: `Verhoeff.validate(s + Verhoeff.generate_check_digit(s))`.
Digit strings are represented as `List (Fin 10)`; `generate_check_digit`
is defined (returns `some`) exactly on the nonempty digit strings on which
the Python function does not raise. -/
theorem c3_verhoeff_check_digit_roundtrip
    (ds : List (Fin 10)) (c : Fin 10)
    (h : Verhoeff.generate_check_digit ds = some c) :
    Verhoeff.validateDigits (ds ++ [c]) = true := by
  unfold Verhoeff.generate_check_digit at h
  by_cases he : ds.isEmpty
  · rw [if_pos he] at h; exact absurd h (by simp)
  · rw [if_neg he] at h
    have hc : c = Verhoeff.inv (Verhoeff.chk 1 0 ds.reverse) :=
      (Option.some_injective _ h).symm
    unfold Verhoeff.validateDigits
    have h1 : (ds ++ [c]).isEmpty = false := by cases ds <;> rfl
    have h2 : (ds ++ [c]).reverse = c :: ds.reverse := by simp
    have h3 : Verhoeff.chk 0 0 (c :: ds.reverse) = Verhoeff.chk 1 c ds.reverse := by
      show Verhoeff.chk 1 (Verhoeff.d 0 (Verhoeff.pRow 0 c)) ds.reverse = _
      rw [Verhoeff.d_zero_left, Verhoeff.pRow_zero]
    simp only [h1, h2, h3, Bool.not_false, Bool.true_and]
    rw [Verhoeff.chk_factor ds.reverse 1 c, hc, Verhoeff.d_inv_left]
    rfl

/-- C3 witness: the concrete 11-digit string `23456789012` gets check digit
4 and `234567890124` validates. -/
theorem c3_witness :
    Verhoeff.generate_check_digit ([2, 3, 4, 5, 6, 7, 8, 9, 0, 1, 2] : List (Fin 10)) =
      some 4 ∧
    Verhoeff.validateDigits
      (([2, 3, 4, 5, 6, 7, 8, 9, 0, 1, 2] : List (Fin 10)) ++ [4]) = true :=
  ⟨by decide, c3_verhoeff_check_digit_roundtrip _ 4 (by decide)⟩

/-! ## C2 — scope gate rejects before invoking any validator -/

/-- C2: for every candidate whose (normalized) entity type is not one of
the 11 allow-listed PII types, `validate_and_create_finding` returns `None`
with an empty invocation trace — neither a per-type validator nor the
context validator is invoked. -/
theorem c2_scope_gate_rejects_before_validators
    (excl : List String) (r : RecognizerResult) (text : String)
    (source_info : SourceInfo) (pattern_name now : String)
    (h : pyStrip (pyUpper r.entity_type) ∉ LOCKED_PII_TYPES) :
    validate_and_create_finding excl r text source_info pattern_name now =
      (Except.ok none, []) := by
  have hfalse : is_allowed_pii r.entity_type = false := by
    simp [is_allowed_pii, h]
  simp [validate_and_create_finding, hfalse]

/-- C2 witness: a `US_SSN` candidate is rejected with no validator
invoked. -/
theorem c2_witness :
    validate_and_create_finding []
      ⟨"US_SSN", 0, 11, mkRat 9 10⟩ "123-45-6789"
      ⟨"/data/users.csv", some 42, none, none, "filesystem", "localhost"⟩
      "SSN" "2026-01-01T00:00:00Z" = (Except.ok none, []) :=
  c2_scope_gate_rejects_before_validators _ _ _ _ _ _ (by decide)

/-! ## C1 — the emitted `VerifiedFinding` and its raw-value handling

The concrete accepted candidate below (`IN_AADHAAR`, matched value
`234567890124`, Verhoeff-valid) exercises `validate_and_create_finding` and
`VerifiedFinding.create_from_analysis` end to end. -/

/-- C1: evaluation of the pipeline at an accepted candidate.  The claim's
first two parts hold — the serialized record has exactly the twelve schema
keys (no `value`/`matches` field) and `value_hash` is the SHA-256 hex digest
of the raw matched value — but its third part fails: the
`context_excerpt` field of the emitted finding contains the raw matched
value `234567890124` verbatim, because `create_from_analysis` copies
`text[start-50:end+50]` (which always spans the match) into the record.
This contradicts the code's own `NEVER store raw PII` comment and the
spec's boundary invariant. -/
theorem c1_raw_value_leaks_in_context_excerpt :
    (validate_and_create_finding [] c1_result c1_text c1_source "Aadhaar"
       "2026-01-01T00:00:00Z").1 = Except.ok (some c1_finding) ∧
    c1_finding.to_dict.map Prod.fst =
      ["pii_type", "value_hash", "source", "validators_passed", "validation_method",
       "ml_confidence", "ml_entity_type", "context_excerpt", "context_keywords",
       "pattern_name", "detected_at", "scanner_version"] ∧
    ("value" ∉ c1_finding.to_dict.map Prod.fst) ∧
    ("matches" ∉ c1_finding.to_dict.map Prod.fst) ∧
    c1_finding.value_hash = sha256HexOfString "234567890124" ∧
    strOccursIn c1_finding.context_excerpt "234567890124" = true := by
  refine ⟨by decide, rfl, by decide, by decide, by decide, by decide⟩

/-! ## C4 — dummy-data filtering in the pipeline -/

/-- If `is_test_data` flags the matched value, the context validator returns
a rejection triple. -/
theorem validate_with_context_test_data
    (excl : List String) (value pii_type text : String) (start stop : Nat)
    (conf : ℚ) (h : is_test_data excl value pii_type = true) :
    validate_with_context excl value pii_type text start stop conf =
      (false, 0, "Rejected: Test data pattern detected (" ++ value ++ ")") := by
  unfold validate_with_context
  rw [h]
  rfl

/-- C4 (amended): `validate_and_create_finding` never emits a finding for a
candidate whose matched value matches the context validator's per-type
`TEST_DATA_PATTERNS` (or exclusion list) — every control path then yields
`None` or an exception, never a `VerifiedFinding`.  (`is_dummy_data` itself
is not invoked by the pipeline; see the counterexample.) -/
theorem c4_pipeline_rejects_test_data_patterns
    (excl : List String) (r : RecognizerResult) (text : String)
    (source_info : SourceInfo) (pattern_name now : String)
    (h : is_test_data excl (pySlice text r.start r.stop) r.entity_type = true) :
    (validate_and_create_finding excl r text source_info pattern_name now).1.map
      Option.isSome ≠ Except.ok true := by
  unfold validate_and_create_finding
  by_cases ha : is_allowed_pii r.entity_type
  · simp only [ha, Bool.not_true, Bool.false_eq_true, if_false]
    cases hg : get_validator r.entity_type with
    | none =>
        rw [validate_with_context_test_data excl _ _ text r.start r.stop r.score h]
        simp [Except.map]
    | some p =>
        obtain ⟨vname, vfn⟩ := p
        dsimp only
        cases hv : vfn (pySlice text r.start r.stop) with
        | none => simp [Except.map]
        | some b =>
            cases b with
            | false => simp [Except.map]
            | true =>
                rw [validate_with_context_test_data excl _ _ text r.start r.stop r.score h]
                simp [Except.map]
  · simp only [Bool.not_eq_true'] at ha
    simp [ha, Except.map]

/-- C4 witness: the all-ones card number matches a `CREDIT_CARD` test
pattern, so the pipeline refuses to emit a finding for it. -/
theorem c4_witness :
    (validate_and_create_finding []
       ⟨"CREDIT_CARD", 0, 16, mkRat 95 100⟩ "1111111111111111"
       ⟨"/data/cards.txt", none, none, none, "filesystem", "localhost"⟩
       "CreditCard" "2026-01-01T00:00:00Z").1.map Option.isSome ≠ Except.ok true :=
  c4_pipeline_rejects_test_data_patterns _ _ _ _ _ _ (by decide)

/-- C4 counterexample: the matched value `5454545454545454` is dummy data
per `is_dummy_data` (two identical concatenated halves) and passes the Luhn
check, and `validate_and_create_finding` nevertheless emits a finding —
the pipeline never invokes `is_dummy_data` (it is used by the Aadhaar and
credit-card *recognizers*, upstream of this pipeline), so the claim as
stated is false. -/
theorem c4_counterexample_dummy_card_accepted :
    is_dummy_data "5454545454545454" = some true ∧
    validate_credit_card "5454545454545454" = some true ∧
    (validate_and_create_finding []
       ⟨"CREDIT_CARD", 4, 20, mkRat 95 100⟩ c4_text
       ⟨"/data/cards.txt", none, none, none, "filesystem", "localhost"⟩
       "CreditCard" "2026-01-01T00:00:00Z").1.map Option.isSome = Except.ok true := by
  refine ⟨by decide, by decide, by decide⟩

/-! ## C5 — the credit-card validator computes the Luhn condition -/

/-- On ASCII characters, Python `isdigit` agrees with `0`-`9`. -/
theorem pyIsDigit_ascii {c : Char} (h : c.toNat < 128) : pyIsDigit c = c.isDigit := by
  have h1 : c ≠ '¹' := by intro e; rw [e] at h; exact absurd h (by decide)
  have h2 : c ≠ '²' := by intro e; rw [e] at h; exact absurd h (by decide)
  have h3 : c ≠ '³' := by intro e; rw [e] at h; exact absurd h (by decide)
  simp [pyIsDigit, h1, h2, h3]

/-- ASCII decimal digits satisfy `pyIsDigit`. -/
theorem pyIsDigit_of_isDigit {c : Char} (h : c.isDigit = true) : pyIsDigit c = true := by
  simp [pyIsDigit, h]

/-- On all-ASCII-digit character lists the (partial) Luhn total succeeds and
computes the claim's Luhn sum of the digit values. -/
theorem luhn_sumFrom_of_digits (chars : List Char) :
    ∀ (i : Nat), (∀ c ∈ chars, c.isDigit) → ∀ parity,
    Luhn.sumFrom parity i chars =
      some (luhnSumSpec parity i (chars.map (fun c => c.toNat - 48))) := by
  induction chars with
  | nil => intro i h parity; rfl
  | cons c cs ih =>
      intro i h parity
      have hc : c.isDigit = true := h c (List.mem_cons_self c cs)
      have hv : pyDigitVal c = some (c.toNat - 48) := by
        unfold pyDigitVal; rw [if_pos hc]
      show Luhn.sumFrom parity i (c :: cs) = _
      unfold Luhn.sumFrom
      rw [hv, ih (i + 1) (fun x hx => h x (List.mem_cons_of_mem _ hx)) parity]
      rfl

/-- C5 (amended): for every all-ASCII string `s`, `validate_credit_card s`
returns `True` exactly when the `0`-`9` characters of `s` number between 13
and 19 and their Luhn sum — doubling every digit whose left-to-right index
parity equals `length % 2` — is divisible by 10; and the near-valid Visa
number `4532015112830367` is rejected and produces no finding.  (The ASCII
restriction is forced by the counterexample: non-ASCII digit-classified
characters crash the validator, see C9.) -/
theorem c5_validate_credit_card_luhn :
    (∀ s : String, (∀ ch ∈ s.data, ch.toNat < 128) →
      (validate_credit_card s = some true ↔
        (13 ≤ (s.data.filter Char.isDigit).length ∧
         (s.data.filter Char.isDigit).length ≤ 19 ∧
         luhnSumSpec ((s.data.filter Char.isDigit).length % 2) 0
           ((s.data.filter Char.isDigit).map (fun c => c.toNat - 48)) % 10 = 0))) ∧
    validate_credit_card "4532015112830367" = some false ∧
    (validate_and_create_finding [] ⟨"CREDIT_CARD", 0, 16, mkRat 95 100⟩
       "4532015112830367"
       ⟨"/data/cards.txt", none, none, none, "filesystem", "localhost"⟩
       "CreditCard" "2026-01-01T00:00:00Z").1 = Except.ok none := by
  refine ⟨?_, by decide, by decide⟩
  intro s hA
  have hfeq : s.data.filter pyIsDigit = s.data.filter Char.isDigit :=
    List.filter_congr (fun c hc => pyIsDigit_ascii (hA c hc))
  simp only [validate_credit_card]
  rw [hfeq]
  split
  case isTrue hcond =>
      simp only [decide_eq_true_eq, Bool.or_eq_true] at hcond
      constructor
      · intro e; exact absurd e (by simp)
      · rintro ⟨h1, h2, _⟩; omega
  case isFalse hcond =>
      simp only [decide_eq_true_eq, Bool.or_eq_true, not_or] at hcond
      obtain ⟨h13, h19⟩ := hcond
      have hall : ∀ c ∈ s.data.filter Char.isDigit, c.isDigit = true :=
        fun c hc => List.of_mem_filter hc
      have hne : (s.data.filter Char.isDigit).isEmpty = false := by
        rcases hl : s.data.filter Char.isDigit with _ | _
        · rw [hl] at h13; simp at h13
        · rfl
      have hpy : (s.data.filter Char.isDigit).all pyIsDigit = true :=
        List.all_eq_true.mpr (fun c hc => pyIsDigit_of_isDigit (hall c hc))
      unfold Luhn.validate
      rw [hne, hpy]
      rw [if_neg (show ¬((false || !true) = true) by decide)]
      rw [if_neg h13]
      rw [luhn_sumFrom_of_digits _ 0 hall _]
      dsimp only [Option.map]
      constructor
      · intro e
        have hb := Option.some_injective _ e
        exact ⟨by omega, by omega, by simpa using hb⟩
      · rintro ⟨_, _, h3⟩
        simp [h3]

/-- C5 witness: the Luhn-valid Visa test number validates, by the amended
theorem applied at a concrete ASCII input. -/
theorem c5_witness : validate_credit_card "4532015112830366" = some true :=
  (c5_validate_credit_card_luhn.1 "4532015112830366" (by decide)).mpr (by decide)

/-- C5 counterexample: on `"4532015112830366²"` the claim's right-hand side
holds (sixteen `0`-`9` characters forming a Luhn-valid number) but
`validate_credit_card` does not return at all — the superscript `²` passes
`str.isdigit`, survives the cleaning filter, and makes `int()` raise inside
the Luhn loop — so the claimed equivalence fails for non-ASCII input. -/
theorem c5_counterexample :
    validate_credit_card "4532015112830366²" = none ∧
    13 ≤ ("4532015112830366²".data.filter Char.isDigit).length ∧
    ("4532015112830366²".data.filter Char.isDigit).length ≤ 19 ∧
    luhnSumSpec (("4532015112830366²".data.filter Char.isDigit).length % 2) 0
      (("4532015112830366²".data.filter Char.isDigit).map (fun c => c.toNat - 48)) %
      10 = 0 := by
  refine ⟨by decide, by decide, by decide, by decide⟩

/-! ## C6 — confidence adjustment formula -/

/-- A conditional multiplication whose factor is `1` when the count is zero
collapses to an unconditional multiplication. -/
theorem if_pos_mul (x g : ℚ) (n : ℕ) (hg : n = 0 → g = 1) :
    (if n > 0 then x * g else x) = x * g := by
  by_cases h : n > 0
  · rw [if_pos h]
  · have h0 : n = 0 := by omega
    rw [if_neg h, hg h0, mul_one]

/-- C6 (amended): for every base confidence `b ∈ [0,1]` and keyword list
with `t` test, `p` production and `n` negative keywords,
`adjust_confidence_by_context` returns `b` multiplied once per *category*
by `(1 − 0.15·t)`, `(1 + 0.05·p)` and `(1 − 0.25·n)`, clamped to `[0,1]`
(not once per keyword as the claim states; see the counterexample). -/
theorem c6_adjust_confidence_category_factors
    (b : ℚ) (hb0 : 0 ≤ b) (hb1 : b ≤ 1) (keywords : List String) :
    adjust_confidence_by_context b keywords =
      max 0 (min 1
        (b * (1 - (keywords.countP (fun k => TEST_KEYWORDS.contains k)) * mkRat 15 100)
           * (1 + (keywords.countP (fun k => PRODUCTION_KEYWORDS.contains k)) * mkRat 5 100)
           * (1 - (keywords.countP (fun k => NEGATIVE_KEYWORDS.contains k)) * mkRat 25 100))) := by
  simp only [adjust_confidence_by_context]
  rw [if_pos_mul b _ _ (fun h0 => by rw [h0]; norm_num),
      if_pos_mul _ _ _ (fun h0 => by rw [h0]; norm_num),
      if_pos_mul _ _ _ (fun h0 => by rw [h0]; norm_num)]

/-- C6 witness: with no keywords all three counts are zero and the theorem
yields the clamped base confidence. -/
theorem c6_witness :
    0 ≤ (mkRat 95 100) ∧ (mkRat 95 100) ≤ 1 ∧
    adjust_confidence_by_context (mkRat 95 100) [] =
      max 0 (min 1 ((mkRat 95 100) * (1 - (0 : ℕ) * mkRat 15 100)
        * (1 + (0 : ℕ) * mkRat 5 100) * (1 - (0 : ℕ) * mkRat 25 100))) :=
  ⟨by norm_num, by norm_num,
   c6_adjust_confidence_category_factors (mkRat 95 100) (by norm_num) (by norm_num) []⟩

/-- C6 counterexample: with the two test keywords `test` and `dummy` and
base confidence 1 the code returns `1 · (1 − 2·0.15) = 0.7`, while the
claim's per-keyword reading demands `1 · 0.85 · 0.85 = 0.7225`. -/
theorem c6_counterexample :
    adjust_confidence_by_context 1 ["test", "dummy"] = mkRat 7 10 ∧
    (1 : ℚ) * (1 - mkRat 15 100) * (1 - mkRat 15 100) = mkRat 7225 10000 ∧
    mkRat 7 10 ≠ mkRat 7225 10000 := by
  have hcount : (["test", "dummy"].countP (fun k => TEST_KEYWORDS.contains k)) = 2 := rfl
  have hp : (["test", "dummy"].countP (fun k => PRODUCTION_KEYWORDS.contains k)) = 0 := rfl
  have hn : (["test", "dummy"].countP (fun k => NEGATIVE_KEYWORDS.contains k)) = 0 := rfl
  refine ⟨?_, by norm_num [Rat.mkRat_eq_div], by norm_num [Rat.mkRat_eq_div]⟩
  simp only [adjust_confidence_by_context]
  rw [hcount, hp, hn]
  norm_num [Rat.mkRat_eq_div]

/-! ## C7 / C10 — deterministic tokenization -/

/-- C7 (amended): for every secret key, value and PII type,
`TokenizeStrategy.mask` returns `"TOKEN_"` followed by the first 16
characters of the hex digest of `sha256(key ":" value ":" pii_type)`
**converted to uppercase** (the `.upper()` call is what the claim as stated
omits), and the token is deterministic: instances with equal keys produce
identical tokens. -/
theorem c7_tokenize_formula :
    (∀ key value pii_type : String, key ≠ "" →
      TokenizeStrategy.mask (TokenizeStrategy.init (some key)) value pii_type =
        "TOKEN_" ++ pyUpper (String.mk
          ((sha256HexOfString (key ++ ":" ++ value ++ ":" ++ pii_type)).data.take 16))) ∧
    (∀ s1 s2 : TokenizeStrategy, s1.secret_key = s2.secret_key →
      ∀ value pii_type : String, s1.mask value pii_type = s2.mask value pii_type) := by
  constructor
  · intro key value pii_type hk
    unfold TokenizeStrategy.mask TokenizeStrategy.init
    dsimp only
    rw [if_neg hk]
  · intro s1 s2 he value pii_type
    unfold TokenizeStrategy.mask
    rw [he]

/-- C7 witness: the amended formula at a concrete key, value and type. -/
theorem c7_witness :
    TokenizeStrategy.mask (TokenizeStrategy.init (some "key")) "9876543210" "IN_PHONE" =
      "TOKEN_" ++ pyUpper (String.mk
        ((sha256HexOfString ("key" ++ ":" ++ "9876543210" ++ ":" ++ "IN_PHONE")).data.take 16)) :=
  c7_tokenize_formula.1 "key" "9876543210" "IN_PHONE" (by decide)

/-- C7 counterexample: the emitted token is **not** `"TOKEN_"` plus the raw
first 16 hex-digest characters — the code uppercases them (the digest here
starts `30a17e373af5ff1b`, the token is `TOKEN_30A17E373AF5FF1B`). -/
theorem c7_counterexample :
    TokenizeStrategy.mask (TokenizeStrategy.init (some "key")) "9876543210" "IN_PHONE" ≠
      "TOKEN_" ++ String.mk
        ((sha256HexOfString ("key" ++ ":" ++ "9876543210" ++ ":" ++ "IN_PHONE")).data.take 16) := by
  decide

/-- C10: a `TokenizeStrategy` constructed without a secret key falls back to
the fixed built-in default key, so keyless instances are interchangeable
with an instance explicitly keyed with that literal, and every token they
produce is the uppercased 16-character digest prefix under the known default
key — predictable to anyone who knows it. -/
theorem c10_default_key_predictable_tokens :
    (TokenizeStrategy.init none).secret_key = "default_secret_key_change_in_production" ∧
    TokenizeStrategy.init none =
      TokenizeStrategy.init (some "default_secret_key_change_in_production") ∧
    (∀ value pii_type : String,
      TokenizeStrategy.mask (TokenizeStrategy.init none) value pii_type =
        "TOKEN_" ++ pyUpper (String.mk ((sha256HexOfString
          ("default_secret_key_change_in_production" ++ ":" ++ value ++ ":" ++ pii_type)).data.take
          16))) :=
  ⟨rfl, by decide, fun value pii_type => rfl⟩

/-! ## C9 — validator totality -/

/-- C9: the public validators are *not* total — a candidate containing a
Unicode character with the `Digit` property but outside `0`-`9` (such as
`²`, U+00B2) passes the `str.isdigit` cleaning/format guards and then makes
`int()` raise `ValueError` inside the checksum loops of `validate_aadhaar`,
`validate_pan` and `validate_credit_card` (`none` models the uncaught
exception), contradicting the never-throw contract. -/
theorem c9_validators_raise_on_superscript_digits :
    validate_aadhaar "2345678901²3" = none ∧
    validate_pan "ABCPX²³²³A" "" = none ∧
    validate_credit_card "453201511283036²" = none := by
  refine ⟨by decide, by decide, by decide⟩

/-! ## C8 — backup / mask / rollback round trip -/

/-- Looking up a path other than the masked source location after
`mask_findings` sees exactly the filesystem left by the internal backup
step: the only other write `mask_findings` performs is to the source
location itself. -/
theorem mask_findings_fs_off_source (cfg : FsAdapterCfg)
    (csvFn jsonFn : List MaskingFinding → String → Option (String × Nat × Nat))
    (strategy : String → String → String) (fs : FS) (findings : List MaskingFinding)
    (src bp q : String) (hq : q ≠ src) :
    (mask_findings cfg csvFn jsonFn strategy fs findings src bp).2 q =
      (if cfg.backup_enabled then (create_backup cfg fs src bp).2 else fs) q := by
  unfold mask_findings
  dsimp only
  repeat' split
  all_goals first
    | rfl
    | simp [fsWrite, hq]

/-- C8: if `create_backup(X)` succeeds (backups enabled, not dry-run, `X`
exists with content `c`) and `mask_findings` is then applied to `X` with any
findings, any strategy, and any behaviour of the CSV/JSON standard-library
rewrites, a subsequent `rollback(backup, X)` returns `True` and restores
`X`'s content byte-for-byte (`b1` and `b2` are the timestamped backup paths
the two `create_backup` calls generate; a backup path never coincides with
the file being masked). -/
theorem c8_backup_mask_rollback_restores
    (cfg : FsAdapterCfg) (fs : FS) (x b1 b2 content : String)
    (csvFn jsonFn : List MaskingFinding → String → Option (String × Nat × Nat))
    (strategy : String → String → String) (findings : List MaskingFinding)
    (hEnabled : cfg.backup_enabled = true) (hDry : cfg.dry_run = false)
    (hX : fs x = some content) (hb1 : b1 ≠ x) :
    (create_backup cfg fs x b1).1 = some b1 ∧
    (rollback cfg
       (mask_findings cfg csvFn jsonFn strategy (create_backup cfg fs x b1).2 findings x b2).2
       b1 x).1 = true ∧
    (rollback cfg
       (mask_findings cfg csvFn jsonFn strategy (create_backup cfg fs x b1).2 findings x b2).2
       b1 x).2 x = some content := by
  have hcb : create_backup cfg fs x b1 = (some b1, fsWrite fs b1 content) := by
    simp [create_backup, hEnabled, hDry, hX]
  have hfs1x : fsWrite fs b1 content x = some content := by
    by_cases h : x = b1 <;> simp [fsWrite, h, hX]
  have hcb2 : create_backup cfg (fsWrite fs b1 content) x b2 =
      (some b2, fsWrite (fsWrite fs b1 content) b2 content) := by
    simp [create_backup, hEnabled, hDry, hfs1x]
  have hkey : (mask_findings cfg csvFn jsonFn strategy (fsWrite fs b1 content)
      findings x b2).2 b1 = some content := by
    rw [mask_findings_fs_off_source cfg csvFn jsonFn strategy _ findings x b2 b1 hb1,
        if_pos hEnabled, hcb2]
    by_cases h : b1 = b2 <;> simp [fsWrite, h]
  rw [hcb]
  dsimp only
  have hroll : rollback cfg
      (mask_findings cfg csvFn jsonFn strategy (fsWrite fs b1 content) findings x b2).2 b1 x =
      (true, fsWrite (mask_findings cfg csvFn jsonFn strategy (fsWrite fs b1 content)
        findings x b2).2 x content) := by
    unfold rollback
    rw [if_neg (show ¬(cfg.dry_run = true) by simp [hDry]), hkey]
  rw [hroll]
  refine ⟨rfl, rfl, by simp [fsWrite]⟩

/-- C8 witness: a concrete file, finding list and strategy; backup, mask and
rollback restore the original bytes. -/
theorem c8_witness :
    (create_backup ⟨"/backups", true, false⟩
       (fun p => if p = "/d/a.txt" then some "hello 9876543210" else none)
       "/d/a.txt" "/backups/a.txt.20260101.backup").1 =
      some "/backups/a.txt.20260101.backup" ∧
    (rollback ⟨"/backups", true, false⟩
       (mask_findings ⟨"/backups", true, false⟩ (fun _ _ => none) (fun _ _ => none)
          (fun _ _ => "[REDACTED]")
          (create_backup ⟨"/backups", true, false⟩
            (fun p => if p = "/d/a.txt" then some "hello 9876543210" else none)
            "/d/a.txt" "/backups/a.txt.20260101.backup").2
          [⟨"9876543210", "IN_PHONE", "/d/a.txt", some 6, some 16⟩]
          "/d/a.txt" "/backups/a.txt.20260102.backup").2
       "/backups/a.txt.20260101.backup" "/d/a.txt").1 = true ∧
    (rollback ⟨"/backups", true, false⟩
       (mask_findings ⟨"/backups", true, false⟩ (fun _ _ => none) (fun _ _ => none)
          (fun _ _ => "[REDACTED]")
          (create_backup ⟨"/backups", true, false⟩
            (fun p => if p = "/d/a.txt" then some "hello 9876543210" else none)
            "/d/a.txt" "/backups/a.txt.20260101.backup").2
          [⟨"9876543210", "IN_PHONE", "/d/a.txt", some 6, some 16⟩]
          "/d/a.txt" "/backups/a.txt.20260102.backup").2
       "/backups/a.txt.20260101.backup" "/d/a.txt").2 "/d/a.txt" =
      some "hello 9876543210" :=
  c8_backup_mask_rollback_restores ⟨"/backups", true, false⟩
    (fun p => if p = "/d/a.txt" then some "hello 9876543210" else none)
    "/d/a.txt" "/backups/a.txt.20260101.backup" "/backups/a.txt.20260102.backup"
    "hello 9876543210" (fun _ _ => none) (fun _ _ => none) (fun _ _ => "[REDACTED]")
    [⟨"9876543210", "IN_PHONE", "/d/a.txt", some 6, some 16⟩]
    rfl rfl (by simp) (by decide)

end ARCHawk
